import Mathlib

/-!
Shallow embedding of the casper-node gossiper component
(`node/src/components/gossiper.rs`) and of the block synchronizer's deploy
acquisition (`node/src/components/block_synchronizer/deploy_acquisition.rs`).

Item identifiers (`T::Id`), peer identifiers (`NodeId`), deploy hashes and
approvals hashes are opaque equality-comparable values in the source; here
they are type parameters, instantiated at `Nat` in concrete witnesses.
Durations are embedded by their value in seconds (`Nat`).  A Rust
`todo!`/`unreachable!` is embedded as `Option.none` respectively a
`panicked` flag.  The `tracing` log calls are embedded as a list of log
levels, and the calls a handler makes into the external `GossipTable` as a
trace of `TableOp` values.
-/

/-- `DeployState` from deploy_acquisition.rs. -/
inductive DeployState
  | vacant
  | haveDeployBody
deriving DecidableEq

/-- `DeployId`: a deploy hash paired with an approvals hash
(`DeployId::new(deploy_hash, approvals_hash)`). -/
structure DeployId (H A : Type) where
  deploy_hash : H
  approvals_hash : A
deriving DecidableEq

/-- `Acquisition<T>` from deploy_acquisition.rs. -/
structure Acquisition (T : Type) where
  inner : List (T × DeployState)
  need_execution_result : Bool
deriving DecidableEq

/-- `DeployAcquisition` from deploy_acquisition.rs. -/
inductive DeployAcquisition (H A : Type)
  | byHash (acquisition : Acquisition H)
  | byId (acquisition : Acquisition (DeployId H A))
deriving DecidableEq

/-- `Acquisition::new`: every identifier starts in state `Vacant`. -/
def Acquisition.new {T : Type} (deploy_identifiers : List T)
    (need_execution_result : Bool) : Acquisition T :=
  ⟨deploy_identifiers.map (fun d => (d, DeployState.vacant)), need_execution_result⟩

/-- `Acquisition::apply_deploy`: pushes `(deploy_identifier, HaveDeployBody)`
onto the end of `inner`. -/
def Acquisition.apply_deploy {T : Type} (a : Acquisition T)
    (deploy_identifier : T) : Acquisition T :=
  ⟨a.inner ++ [(deploy_identifier, DeployState.haveDeployBody)], a.need_execution_result⟩

/-- The closure inside `Acquisition::needs_deploy`'s `find_map`. -/
def vacantId {T : Type} (e : T × DeployState) : Option T :=
  match e.2 with
  | DeployState.vacant => some e.1
  | DeployState.haveDeployBody => none

/-- `Acquisition::needs_deploy`: the first identifier in insertion order whose
state is `Vacant`, if any. -/
def Acquisition.needs_deploy {T : Type} (a : Acquisition T) : Option T :=
  a.inner.findSome? vacantId

/-- The `drain(..).zip(approvals_hashes).map(..).collect()` inside
`DeployAcquisition::apply_approvals_hashes`.  `none` embeds the
`todo!("should be an error")` hit at the first zipped entry whose state is
not `Vacant`; entries beyond the shorter of the two lists are dropped by
`zip` and never examined. -/
def applyApprovalsZip {H A : Type} :
    List (H × DeployState) → List A → Option (List (DeployId H A × DeployState))
  | _, [] => some []
  | [], _ :: _ => some []
  | (deploy_hash, deploy_state) :: rest, approvals_hash :: more =>
    match deploy_state with
    | DeployState.vacant =>
      (applyApprovalsZip rest more).map
        (fun tl => (⟨deploy_hash, approvals_hash⟩, DeployState.vacant) :: tl)
    | DeployState.haveDeployBody => none

/-- `DeployAcquisition::apply_approvals_hashes`; `none` embeds a `todo!`. -/
def DeployAcquisition.apply_approvals_hashes {H A : Type} :
    DeployAcquisition H A → List A → Option (DeployAcquisition H A)
  | DeployAcquisition.byHash acquisition, approvals_hashes =>
    (applyApprovalsZip acquisition.inner approvals_hashes).map
      (fun new_deploy_ids =>
        DeployAcquisition.byId ⟨new_deploy_ids, acquisition.need_execution_result⟩)
  | DeployAcquisition.byId _, _ => none

/-- `Message<T>` from gossiper.rs: the wire messages exchanged between
gossipers (`τ` is the item payload type of `GetResponse`). -/
inductive Message (ι τ : Type)
  | gossip (item_id : ι)
  | gossipResponse (item_id : ι) (is_already_held : Bool)
  | getRequest (item_id : ι)
  | getResponse (item : τ)
deriving DecidableEq

/-- The `Event` variants a gossiper handler schedules as timer follow-ups
(`set_timeout(..).event(..)`). -/
inductive Event (ι π : Type)
  | checkGossipTimeout (item_id : ι) (peer : π)
  | checkGetFromPeerTimeout (item_id : ι) (peer : π)
deriving DecidableEq

/-- One element of the `Effects<Event<T>>` list a handler returns.  The
injected `put_to_holder`/`get_from_holder` closures are embedded abstractly
as single `putToHolder`/`getFromHolder` elements; `gossipMessage` is the
`gossip_message` network request whose follow-up is `GossipedTo`. -/
inductive Effect (ι π τ : Type)
  | sendMessage (peer : π) (message : Message ι τ)
  | gossipMessage (item_id : ι) (count : Nat) (exclude_peers : List π)
  | setTimeout (seconds : Nat) (followup : Event ι π)
  | putToHolder (item : τ) (maybe_sender : Option π)
  | getFromHolder (item_id : ι) (requester : π)
deriving DecidableEq

/-- The payload of `GossipAction::ShouldGossip`. -/
structure ShouldGossip (π : Type) where
  count : Nat
  exclude_peers : List π
deriving DecidableEq

/-- `GossipAction` from `utils::GossipTable`, as matched on in gossiper.rs. -/
inductive GossipAction (π : Type)
  | shouldGossip (sg : ShouldGossip π)
  | noop
  | getRemainder (holder : π)
  | awaitingRemainder
deriving DecidableEq

/-- Which `GossipTable` method a handler invokes (the table lives in
`utils::GossipTable`, outside the gossiper source); recorded as a trace. -/
inductive TableOp (ι π : Type)
  | newPartialData (item_id : ι) (sender : π)
  | newCompleteData (item_id : ι) (maybe_sender : Option π)
  | alreadyInfected (item_id : ι) (peer : π)
  | weInfected (item_id : ι) (peer : π)
  | checkTimeout (item_id : ι) (peer : π)
  | removeHolderIfUnresponsive (item_id : ι) (peer : π)
  | pause (item_id : ι)
deriving DecidableEq

/-- The `tracing` levels the embedded handlers log at. -/
inductive LogLevel
  | debug
  | error
deriving DecidableEq

/-- What one event-handler invocation produces: the returned effects, the
trace of `GossipTable` calls, the log calls, and whether an `unreachable!`
arm was hit. -/
structure HandlerOutput (ι π τ : Type) where
  effects : List (Effect ι π τ)
  ops : List (TableOp ι π)
  logs : List LogLevel
  panicked : Bool
deriving DecidableEq

/-- The fields of `GossipTableConfig` (durations in seconds). -/
structure GossipTableConfig where
  infection_target : Nat
  saturation_limit_percent : Nat
  gossip_request_timeout_secs : Nat
  get_remainder_timeout_secs : Nat
  finished_entry_duration_secs : Nat
deriving DecidableEq

/-- The timeout fields of `Gossiper` (the table itself is external state;
the handlers below take the `GossipAction` the relevant table call
returned as an argument). -/
structure Gossiper where
  gossip_timeout : Nat
  get_from_peer_timeout : Nat
deriving DecidableEq

/-- `Gossiper::new`: `gossip_timeout` comes from `gossip_request_timeout_secs`
and `get_from_peer_timeout` from `get_remainder_timeout_secs`. -/
def Gossiper.new (config : GossipTableConfig) : Gossiper :=
  ⟨config.gossip_request_timeout_secs, config.get_remainder_timeout_secs⟩

/-- `Gossiper::gossip`: one `gossip_message` network effect. -/
def gossipEffects {ι π τ : Type} (item_id : ι) (count : Nat)
    (exclude_peers : List π) : List (Effect ι π τ) :=
  [Effect.gossipMessage item_id count exclude_peers]

/-- `Gossiper::gossiped_to`: with no peers, pause the table entry, log at
debug, return no effects; otherwise arm one `CheckGossipTimeout` per peer
after `gossip_timeout`. -/
def Gossiper.gossiped_to {ι π τ : Type} (g : Gossiper) (item_id : ι)
    (peers : List π) : HandlerOutput ι π τ :=
  if peers.isEmpty then
    ⟨[], [TableOp.pause item_id], [LogLevel.debug], false⟩
  else
    ⟨peers.map (fun peer =>
        Effect.setTimeout g.gossip_timeout (Event.checkGossipTimeout item_id peer)),
      [], [], false⟩

/-- `Gossiper::check_gossip_timeout`, given the action
`table.check_timeout(&item_id, peer)` returned.  The `unreachable!` arm for
`GetRemainder`/`AwaitingRemainder` is embedded as `panicked := true`. -/
def Gossiper.check_gossip_timeout {ι π τ : Type} (g : Gossiper) (item_id : ι)
    (peer : π) (action : GossipAction π) : HandlerOutput ι π τ :=
  match action with
  | GossipAction.shouldGossip sg =>
    ⟨gossipEffects item_id sg.count sg.exclude_peers,
      [TableOp.checkTimeout item_id peer], [], false⟩
  | GossipAction.noop => ⟨[], [TableOp.checkTimeout item_id peer], [], false⟩
  | GossipAction.getRemainder _ => ⟨[], [TableOp.checkTimeout item_id peer], [], true⟩
  | GossipAction.awaitingRemainder => ⟨[], [TableOp.checkTimeout item_id peer], [], true⟩

/-- `Gossiper::check_get_from_peer_timeout`, given the action
`table.remove_holder_if_unresponsive(&item_id, peer)` returned. -/
def Gossiper.check_get_from_peer_timeout {ι π τ : Type} (g : Gossiper)
    (item_id : ι) (peer : π) (action : GossipAction π) : HandlerOutput ι π τ :=
  match action with
  | GossipAction.shouldGossip sg =>
    ⟨gossipEffects item_id sg.count sg.exclude_peers,
      [TableOp.removeHolderIfUnresponsive item_id peer], [], false⟩
  | GossipAction.getRemainder holder =>
    ⟨[Effect.sendMessage holder (Message.getRequest item_id),
        Effect.setTimeout g.get_from_peer_timeout
          (Event.checkGetFromPeerTimeout item_id holder)],
      [TableOp.removeHolderIfUnresponsive item_id peer], [], false⟩
  | GossipAction.noop => ⟨[], [TableOp.removeHolderIfUnresponsive item_id peer], [], false⟩
  | GossipAction.awaitingRemainder =>
    ⟨[], [TableOp.removeHolderIfUnresponsive item_id peer], [], false⟩

/-- `Gossiper::handle_gossip`, given the action
`table.new_partial_data(&item_id, sender)` returned. -/
def Gossiper.handle_gossip {ι π τ : Type} (g : Gossiper) (item_id : ι)
    (sender : π) (action : GossipAction π) : HandlerOutput ι π τ :=
  match action with
  | GossipAction.shouldGossip sg =>
    ⟨gossipEffects item_id sg.count sg.exclude_peers ++
        [Effect.sendMessage sender (Message.gossipResponse item_id true)],
      [TableOp.newPartialData item_id sender], [], false⟩
  | GossipAction.getRemainder _ =>
    ⟨[Effect.sendMessage sender (Message.gossipResponse item_id false),
        Effect.setTimeout g.get_from_peer_timeout
          (Event.checkGetFromPeerTimeout item_id sender)],
      [TableOp.newPartialData item_id sender], [], false⟩
  | GossipAction.noop =>
    ⟨[Effect.sendMessage sender (Message.gossipResponse item_id true)],
      [TableOp.newPartialData item_id sender], [], false⟩
  | GossipAction.awaitingRemainder =>
    ⟨[Effect.sendMessage sender (Message.gossipResponse item_id true)],
      [TableOp.newPartialData item_id sender], [], false⟩

/-- `Gossiper::handle_get_request`: forward to the injected `get_from_holder`. -/
def Gossiper.handle_get_request {ι π τ : Type} (g : Gossiper) (item_id : ι)
    (sender : π) : List (Effect ι π τ) :=
  [Effect.getFromHolder item_id sender]

/-- `Gossiper::handle_gossip_response`, given the action returned by
`already_infected` (when `is_already_held`) or `we_infected` (otherwise).
In the not-already-held case the response is first treated as an implicit
`GetRequest`.  The `unreachable!` arm is `panicked := true`; the effects
field then records what had been built before the arm was hit. -/
def Gossiper.handle_gossip_response {ι π τ : Type} (g : Gossiper) (item_id : ι)
    (is_already_held : Bool) (sender : π) (action : GossipAction π) :
    HandlerOutput ι π τ :=
  let base : List (Effect ι π τ) :=
    if is_already_held then [] else g.handle_get_request item_id sender
  let ops : List (TableOp ι π) :=
    if is_already_held then [TableOp.alreadyInfected item_id sender]
    else [TableOp.weInfected item_id sender]
  match action with
  | GossipAction.shouldGossip sg =>
    ⟨base ++ gossipEffects item_id sg.count sg.exclude_peers, ops, [], false⟩
  | GossipAction.noop => ⟨base, ops, [], false⟩
  | GossipAction.getRemainder _ => ⟨base, ops, [], true⟩
  | GossipAction.awaitingRemainder => ⟨base, ops, [], true⟩

/-- `Gossiper::failed_to_put_to_holder`: pause the entry, log at error,
return no effects. -/
def Gossiper.failed_to_put_to_holder {ι π τ : Type} (g : Gossiper)
    (item_id : ι) (error : String) : HandlerOutput ι π τ :=
  ⟨[], [TableOp.pause item_id], [LogLevel.error], false⟩

/-- `Gossiper::failed_to_get_from_holder`: pause the entry, log at error,
return no effects (the requester gets no reply). -/
def Gossiper.failed_to_get_from_holder {ι π τ : Type} (g : Gossiper)
    (item_id : ι) (error : String) : HandlerOutput ι π τ :=
  ⟨[], [TableOp.pause item_id], [LogLevel.error], false⟩

/-- Modelled from the spec: the per-item record of `utils::GossipTable`
(spec §3, "Per-item state"); the table source is not under src/.  The
`in_flight` deadlines are dropped: only membership matters to the
operations modelled below. -/
structure GossipTableEntry (π : Type) where
  holders : List π
  infected_by_us : List π
  we_infected : List π
  in_flight : List π
  complete : Bool
  paused : Bool
deriving DecidableEq

/-- Number of peers confirmed infected: `|infected_by_us| + |we_infected|`. -/
def GossipTableEntry.infected {π : Type} (e : GossipTableEntry π) : Nat :=
  e.infected_by_us.length + e.we_infected.length

/-- The exclusion set supplied with `ShouldGossip`:
`holders ∪ infected_by_us ∪ we_infected ∪ in_flight.keys()`. -/
def GossipTableEntry.exclude {π : Type} (e : GossipTableEntry π) : List π :=
  e.holders ++ e.infected_by_us ++ e.we_infected ++ e.in_flight

/-- Modelled from the spec: `GossipTable::check_timeout` (spec §4.A op 5),
whose source is not under src/.  "If `peer` already moved out of
`in_flight`, return `Noop`.  Otherwise drop `peer` from `in_flight` ...  If
infection target not reached and peers remain, return `ShouldGossip`; else
`Noop`."  Whether unasked peers remain is known to the engine rather than
the entry, so it is taken as the argument `peers_remain`. -/
def GossipTable.check_timeout {π : Type} [DecidableEq π] (infection_target : Nat)
    (e : GossipTableEntry π) (peer : π) (peers_remain : Bool) :
    GossipAction π × GossipTableEntry π :=
  if peer ∈ e.in_flight then
    let e' := { e with in_flight := e.in_flight.filter (fun q => decide (q ≠ peer)) }
    if e'.infected < infection_target ∧ peers_remain then
      (GossipAction.shouldGossip ⟨infection_target - e'.infected, e'.exclude⟩, e')
    else
      (GossipAction.noop, e')
  else
    (GossipAction.noop, e)

/-- Modelled from the spec: `GossipTable::we_infected` (spec §4.A op 4),
whose source is not under src/.  "Records `peer` in `we_infected`.  Same
return policy as `already_infected`": `ShouldGossip` while still below
`infection_target` (with `count = infection_target − |infected|` and the
exclusion set of spec §4.A op 2), else `Noop`. -/
def GossipTable.we_infected {π : Type} (infection_target : Nat)
    (e : GossipTableEntry π) (peer : π) : GossipAction π × GossipTableEntry π :=
  let e' := { e with we_infected := e.we_infected ++ [peer] }
  if e'.infected < infection_target then
    (GossipAction.shouldGossip ⟨infection_target - e'.infected, e'.exclude⟩, e')
  else
    (GossipAction.noop, e')

/-- C1 fails on the code at a concrete input: when `new_partial_data` returns
`AwaitingRemainder`, `handle_gossip` replies to the sender with
`is_already_held = true`, and no `GossipResponse` with
`is_already_held = false` is among the emitted effects. -/
theorem C1_counterexample :
    Effect.sendMessage 1 (Message.gossipResponse 0 false) ∉
      ((Gossiper.new ⟨3, 80, 5, 6, 3600⟩).handle_gossip 0 1
          GossipAction.awaitingRemainder : HandlerOutput Nat Nat Nat).effects := by
  decide

/-- C1 (amended): for every inbound Gossip message whose `new_partial_data`
call returns `AwaitingRemainder`, the emitted effects are exactly one
message to the sender, `GossipResponse` with `is_already_held = true`. -/
theorem C1_awaiting_remainder_reply {ι π τ : Type}
    (c : GossipTableConfig) (item_id : ι) (sender : π) :
    ((Gossiper.new c).handle_gossip item_id sender
        GossipAction.awaitingRemainder : HandlerOutput ι π τ).effects
      = [Effect.sendMessage sender (Message.gossipResponse item_id true)] := rfl

/-- C2: `gossiped_to` with an empty peer set pauses the entry and emits no
effects; with a non-empty peer set it does not pause and emits exactly one
`CheckGossipTimeout` timer per peer, firing after `gossip_request_timeout`. -/
theorem C2_gossiped_to {ι π τ : Type} (c : GossipTableConfig) (item_id : ι)
    (peers : List π) :
    (peers = [] →
        ((Gossiper.new c).gossiped_to item_id peers : HandlerOutput ι π τ)
          = ⟨[], [TableOp.pause item_id], [LogLevel.debug], false⟩)
    ∧ (peers ≠ [] →
        ((Gossiper.new c).gossiped_to item_id peers : HandlerOutput ι π τ)
          = ⟨peers.map (fun peer =>
                Effect.setTimeout c.gossip_request_timeout_secs
                  (Event.checkGossipTimeout item_id peer)), [], [], false⟩) := by
  constructor
  · intro h
    subst h
    rfl
  · intro h
    cases peers with
    | nil => exact absurd rfl h
    | cons p rest => rfl

/-- C2 witness at concrete inputs: the empty-peers case and a two-peer case. -/
theorem C2_gossiped_to_witness :
    ((Gossiper.new ⟨3, 80, 5, 6, 3600⟩).gossiped_to 0
        ([] : List Nat) : HandlerOutput Nat Nat Nat)
      = ⟨[], [TableOp.pause 0], [LogLevel.debug], false⟩
    ∧ ((Gossiper.new ⟨3, 80, 5, 6, 3600⟩).gossiped_to 0
        [2, 3] : HandlerOutput Nat Nat Nat)
      = ⟨[Effect.setTimeout 5 (Event.checkGossipTimeout 0 2),
          Effect.setTimeout 5 (Event.checkGossipTimeout 0 3)], [], [], false⟩ :=
  ⟨(C2_gossiped_to ⟨3, 80, 5, 6, 3600⟩ 0 []).1 rfl,
   (C2_gossiped_to ⟨3, 80, 5, 6, 3600⟩ 0 [2, 3]).2 (by decide)⟩

/-- C6: when `new_partial_data` returns `GetRemainder`, `handle_gossip`
emits exactly a `GossipResponse` with `is_already_held = false` to the
sender and one `CheckGetFromPeerTimeout` timer with deadline
`get_remainder_timeout`; no `GetRequest` message is sent here. -/
theorem C6_handle_gossip_get_remainder {ι π τ : Type} (c : GossipTableConfig)
    (item_id : ι) (sender holder : π) :
    ((Gossiper.new c).handle_gossip item_id sender
        (GossipAction.getRemainder holder) : HandlerOutput ι π τ).effects
      = [Effect.sendMessage sender (Message.gossipResponse item_id false),
         Effect.setTimeout c.get_remainder_timeout_secs
           (Event.checkGetFromPeerTimeout item_id sender)]
    ∧ ∀ p : π, Effect.sendMessage p (Message.getRequest item_id) ∉
        ((Gossiper.new c).handle_gossip item_id sender
            (GossipAction.getRemainder holder) : HandlerOutput ι π τ).effects := by
  refine ⟨rfl, ?_⟩
  intro p h
  simp [Gossiper.handle_gossip, Gossiper.new] at h

/-- C6 witness at concrete inputs. -/
theorem C6_witness :
    ((Gossiper.new ⟨3, 80, 5, 6, 3600⟩).handle_gossip 0 1
        (GossipAction.getRemainder 2) : HandlerOutput Nat Nat Nat).effects
      = [Effect.sendMessage 1 (Message.gossipResponse 0 false),
         Effect.setTimeout 6 (Event.checkGetFromPeerTimeout 0 1)]
    ∧ Effect.sendMessage 2 (Message.getRequest 0) ∉
        ((Gossiper.new ⟨3, 80, 5, 6, 3600⟩).handle_gossip 0 1
            (GossipAction.getRemainder 2) : HandlerOutput Nat Nat Nat).effects :=
  ⟨(C6_handle_gossip_get_remainder ⟨3, 80, 5, 6, 3600⟩ 0 1 2).1,
   (C6_handle_gossip_get_remainder ⟨3, 80, 5, 6, 3600⟩ 0 1 2).2 2⟩

/-- C7: a failed put to the holder pauses the entry, logs at error level and
returns no effects at all. -/
theorem C7_failed_to_put_to_holder {ι π τ : Type} (g : Gossiper) (item_id : ι)
    (error : String) :
    (g.failed_to_put_to_holder item_id error : HandlerOutput ι π τ)
      = ⟨[], [TableOp.pause item_id], [LogLevel.error], false⟩ := rfl

/-- C8: a failed get from the holder pauses the entry, logs at error level
and returns no effects, so no reply reaches the requester. -/
theorem C8_failed_to_get_from_holder {ι π τ : Type} (g : Gossiper) (item_id : ι)
    (error : String) :
    (g.failed_to_get_from_holder item_id error : HandlerOutput ι π τ)
      = ⟨[], [TableOp.pause item_id], [LogLevel.error], false⟩ := rfl

/-- C9: `check_get_from_peer_timeout` sends a `GetRequest` to the next
holder plus a fresh `CheckGetFromPeerTimeout` timer on `GetRemainder`,
emits nothing on `Noop` or `AwaitingRemainder`, and emits the gossip effect
with the action's count and exclusion set on `ShouldGossip`. -/
theorem C9_check_get_from_peer_timeout {ι π τ : Type} (c : GossipTableConfig)
    (item_id : ι) (peer holder : π) (sg : ShouldGossip π) :
    ((Gossiper.new c).check_get_from_peer_timeout item_id peer
        (GossipAction.getRemainder holder) : HandlerOutput ι π τ).effects
      = [Effect.sendMessage holder (Message.getRequest item_id),
         Effect.setTimeout c.get_remainder_timeout_secs
           (Event.checkGetFromPeerTimeout item_id holder)]
    ∧ ((Gossiper.new c).check_get_from_peer_timeout item_id peer
        GossipAction.noop : HandlerOutput ι π τ).effects = []
    ∧ ((Gossiper.new c).check_get_from_peer_timeout item_id peer
        GossipAction.awaitingRemainder : HandlerOutput ι π τ).effects = []
    ∧ ((Gossiper.new c).check_get_from_peer_timeout item_id peer
        (GossipAction.shouldGossip sg) : HandlerOutput ι π τ).effects
      = [Effect.gossipMessage item_id sg.count sg.exclude_peers] :=
  ⟨rfl, rfl, rfl, rfl⟩

/-- C3: if we previously gossiped the item (so the entry is complete), the
action returned by `check_timeout` is never `GetRemainder` or
`AwaitingRemainder`, so `check_gossip_timeout` cannot hit its
`unreachable!` arm. -/
theorem C3_check_gossip_timeout_no_panic {ι π τ : Type} [DecidableEq π]
    (g : Gossiper) (infection_target : Nat) (e : GossipTableEntry π)
    (item_id : ι) (peer : π) (peers_remain : Bool)
    (hcomplete : e.complete = true) :
    (g.check_gossip_timeout item_id peer
        (GossipTable.check_timeout infection_target e peer peers_remain).1
      : HandlerOutput ι π τ).panicked = false := by
  unfold GossipTable.check_timeout
  split
  · dsimp only
    split
    · rfl
    · rfl
  · rfl

/-- C3 witness: a complete entry with one in-flight peer, at the moment the
gossip-request timeout for that peer fires. -/
theorem C3_witness :
    ((Gossiper.new ⟨3, 80, 5, 6, 3600⟩).check_gossip_timeout 0 2
        (GossipTable.check_timeout 3
          (⟨[], [], [], [2], true, false⟩ : GossipTableEntry Nat) 2 true).1
      : HandlerOutput Nat Nat Nat).panicked = false :=
  C3_check_gossip_timeout_no_panic (Gossiper.new ⟨3, 80, 5, 6, 3600⟩) 3
    ⟨[], [], [], [2], true, false⟩ 0 2 true rfl

/-- C5: handling `GossipResponse` with `is_already_held = false` invokes
`get_from_holder` for `(item_id, sender)`, applies the table's
`we_infected(item_id, sender)`, and when the returned action is
`ShouldGossip` additionally emits a gossip effect with that action's count
and exclusion set; the handler does not hit its `unreachable!` arm. -/
theorem C5_handle_gossip_response_not_held {ι π τ : Type} (g : Gossiper)
    (infection_target : Nat) (e : GossipTableEntry π) (item_id : ι) (sender : π) :
    Effect.getFromHolder item_id sender ∈
        (g.handle_gossip_response item_id false sender
            (GossipTable.we_infected infection_target e sender).1
          : HandlerOutput ι π τ).effects
    ∧ (g.handle_gossip_response item_id false sender
          (GossipTable.we_infected infection_target e sender).1
        : HandlerOutput ι π τ).ops = [TableOp.weInfected item_id sender]
    ∧ (∀ sg : ShouldGossip π,
        (GossipTable.we_infected infection_target e sender).1
            = GossipAction.shouldGossip sg →
        Effect.gossipMessage item_id sg.count sg.exclude_peers ∈
          (g.handle_gossip_response item_id false sender
              (GossipTable.we_infected infection_target e sender).1
            : HandlerOutput ι π τ).effects)
    ∧ (g.handle_gossip_response item_id false sender
          (GossipTable.we_infected infection_target e sender).1
        : HandlerOutput ι π τ).panicked = false := by
  unfold GossipTable.we_infected
  dsimp only
  split
  · refine ⟨?_, rfl, ?_, rfl⟩
    · simp [Gossiper.handle_gossip_response, Gossiper.handle_get_request]
    · intro sg h
      injection h with h'
      subst h'
      simp [Gossiper.handle_gossip_response, Gossiper.handle_get_request,
        gossipEffects]
  · refine ⟨?_, rfl, ?_, rfl⟩
    · simp [Gossiper.handle_gossip_response, Gossiper.handle_get_request]
    · intro sg h
      cases h

/-- C5 witness: a complete entry below the infection target, so `we_infected`
returns `ShouldGossip` with count 2 and the new infectee excluded. -/
theorem C5_witness :
    Effect.getFromHolder 0 5 ∈
        ((Gossiper.new ⟨3, 80, 5, 6, 3600⟩).handle_gossip_response 0 false 5
            (GossipTable.we_infected 3
              (⟨[], [], [], [], true, false⟩ : GossipTableEntry Nat) 5).1
          : HandlerOutput Nat Nat Nat).effects
    ∧ Effect.gossipMessage 0 2 [5] ∈
        ((Gossiper.new ⟨3, 80, 5, 6, 3600⟩).handle_gossip_response 0 false 5
            (GossipTable.we_infected 3
              (⟨[], [], [], [], true, false⟩ : GossipTableEntry Nat) 5).1
          : HandlerOutput Nat Nat Nat).effects :=
  ⟨(C5_handle_gossip_response_not_held (Gossiper.new ⟨3, 80, 5, 6, 3600⟩) 3
      ⟨[], [], [], [], true, false⟩ 0 5).1,
   (C5_handle_gossip_response_not_held (Gossiper.new ⟨3, 80, 5, 6, 3600⟩) 3
      ⟨[], [], [], [], true, false⟩ 0 5).2.2.1 ⟨2, [5]⟩ (by decide)⟩

/-- If some entry zipped against the approvals hashes is not `Vacant`, the
collecting map hits the `todo!("should be an error")`. -/
theorem applyApprovalsZip_eq_none {H A : Type} :
    ∀ (l : List (H × DeployState)) (hs : List A),
      (∃ p ∈ l.zip hs, p.1.2 ≠ DeployState.vacant) →
      applyApprovalsZip l hs = none := by
  intro l
  induction l with
  | nil =>
    intro hs h
    simp at h
  | cons a rest ih =>
    intro hs h
    cases hs with
    | nil => simp at h
    | cons b bs =>
      obtain ⟨ah, ast⟩ := a
      cases ast with
      | vacant =>
        obtain ⟨p, hp, hne⟩ := h
        rcases List.mem_cons.mp hp with rfl | htail
        · exact absurd rfl hne
        · have hnone := ih bs ⟨p, htail, hne⟩
          simp [applyApprovalsZip, hnone]
      | haveDeployBody => rfl

/-- C4 fails on the code at a concrete input: a `ByHash` acquisition with a
non-`Vacant` entry does not reach the `todo!` when the entry lies beyond
the zip with the approvals hashes (here: no approvals hashes at all); the
call returns normally. -/
theorem C4_counterexample :
    (∃ p ∈ (⟨[(0, DeployState.haveDeployBody)], false⟩ : Acquisition Nat).inner,
        p.2 ≠ DeployState.vacant)
    ∧ (DeployAcquisition.byHash
          (⟨[(0, DeployState.haveDeployBody)], false⟩
            : Acquisition Nat)).apply_approvals_hashes ([] : List Nat)
        = some (DeployAcquisition.byId ⟨[], false⟩) := by
  decide

/-- C4 (amended): `apply_approvals_hashes` hits a `todo!` (rather than
returning a defined error) whenever some entry zipped against the approvals
hashes — i.e. among the first `min(|inner|, |approvals_hashes|)` entries —
has a state other than `Vacant`, and also whenever the acquisition is
already in the `ById` variant. -/
theorem C4_apply_approvals_hashes_todo {H A : Type}
    (acq : Acquisition H) (hashes : List A)
    (acq2 : Acquisition (DeployId H A)) :
    ((∃ p ∈ acq.inner.zip hashes, p.1.2 ≠ DeployState.vacant) →
        (DeployAcquisition.byHash acq).apply_approvals_hashes hashes = none)
    ∧ (DeployAcquisition.byId acq2).apply_approvals_hashes hashes = none := by
  constructor
  · intro h
    have hnone := applyApprovalsZip_eq_none acq.inner hashes h
    simp [DeployAcquisition.apply_approvals_hashes, hnone]
  · rfl

/-- C4 witness: with one approvals hash the non-`Vacant` entry is zipped,
so both the `ByHash` and the `ById` calls hit the `todo!`. -/
theorem C4_witness :
    (DeployAcquisition.byHash
        (⟨[(0, DeployState.haveDeployBody)], false⟩
          : Acquisition Nat)).apply_approvals_hashes ([7] : List Nat) = none
    ∧ (DeployAcquisition.byId
        (⟨[], false⟩ : Acquisition (DeployId Nat Nat))).apply_approvals_hashes
        [7] = none :=
  ⟨(C4_apply_approvals_hashes_todo ⟨[(0, DeployState.haveDeployBody)], false⟩
      [7] ⟨[], false⟩).1 (by decide),
   (C4_apply_approvals_hashes_todo ⟨[(0, DeployState.haveDeployBody)], false⟩
      [7] ⟨[], false⟩).2⟩

/-- Appending a `HaveDeployBody` entry never changes the first-`Vacant`
search. -/
theorem findSome_vacantId_append_hdb {T : Type}
    (l : List (T × DeployState)) (x : T) :
    (l ++ [(x, DeployState.haveDeployBody)]).findSome? vacantId
      = l.findSome? vacantId := by
  induction l with
  | nil => rfl
  | cons e rest ih =>
    cases h : vacantId e <;> simp [List.findSome?_cons, h, ih]

/-- C10 fails on the code at a concrete input: with `(1, Vacant)` present
but preceded by another `Vacant` identifier, `needs_deploy` after
`apply_deploy 1` returns that earlier identifier, not `1`. -/
theorem C10_counterexample :
    ((1 : Nat), DeployState.vacant)
        ∈ (⟨[(0, DeployState.vacant), (1, DeployState.vacant)], false⟩
            : Acquisition Nat).inner
    ∧ ((⟨[(0, DeployState.vacant), (1, DeployState.vacant)], false⟩
          : Acquisition Nat).apply_deploy 1).needs_deploy ≠ some 1 := by
  decide

/-- C10 (amended): `apply_deploy x` appends `(x, HaveDeployBody)` to the end
of `inner` and leaves every existing entry unchanged; consequently
`needs_deploy` is unchanged, if `(x, Vacant)` was already present the list
afterwards contains `x` twice, and `needs_deploy` still returns `x`
whenever `x` was the first identifier in insertion order with state
`Vacant`. -/
theorem C10_apply_deploy_needs_deploy {T : Type} [DecidableEq T]
    (a : Acquisition T) (x : T) :
    (a.apply_deploy x).inner = a.inner ++ [(x, DeployState.haveDeployBody)]
    ∧ (a.apply_deploy x).needs_deploy = a.needs_deploy
    ∧ ((x, DeployState.vacant) ∈ a.inner →
        2 ≤ ((a.apply_deploy x).inner.map Prod.fst).count x)
    ∧ (a.needs_deploy = some x → (a.apply_deploy x).needs_deploy = some x) := by
  refine ⟨rfl, findSome_vacantId_append_hdb a.inner x, ?_, ?_⟩
  · intro hmem
    have h1 : x ∈ a.inner.map Prod.fst := List.mem_map_of_mem Prod.fst hmem
    have h2 : 1 ≤ (a.inner.map Prod.fst).count x := List.count_pos_iff.mpr h1
    have h3 : ((a.apply_deploy x).inner.map Prod.fst).count x
        = (a.inner.map Prod.fst).count x + 1 := by
      simp [Acquisition.apply_deploy]
    omega
  · intro h
    calc (a.apply_deploy x).needs_deploy
        = a.needs_deploy := findSome_vacantId_append_hdb a.inner x
      _ = some x := h

/-- C10 witness: `x = 1` is itself the first `Vacant` identifier. -/
theorem C10_witness :
    ((⟨[(1, DeployState.vacant)], false⟩ : Acquisition Nat).apply_deploy 1).inner
        = [(1, DeployState.vacant), (1, DeployState.haveDeployBody)]
    ∧ 2 ≤ ((((⟨[(1, DeployState.vacant)], false⟩
          : Acquisition Nat).apply_deploy 1).inner.map Prod.fst).count 1)
    ∧ ((⟨[(1, DeployState.vacant)], false⟩
          : Acquisition Nat).apply_deploy 1).needs_deploy = some 1 :=
  ⟨(C10_apply_deploy_needs_deploy ⟨[(1, DeployState.vacant)], false⟩ 1).1,
   (C10_apply_deploy_needs_deploy ⟨[(1, DeployState.vacant)], false⟩ 1).2.2.1
     (by decide),
   (C10_apply_deploy_needs_deploy ⟨[(1, DeployState.vacant)], false⟩ 1).2.2.2
     (by decide)⟩
